import Mathlib

/-!
Shallow embedding of the `jfoscarini/logger` library, transcribed from
`src/logger_cpp11.hpp` and `src/logger_cpp23.hpp`.

The two headers define, in namespace `log`:
  * `enum class Level` with ten enumerators;
  * `class Logger`, a record builder whose constructor pre-renders a header
    into an internal `ostringstream` buffer, whose streaming operator appends
    renderings, and whose destructor appends a color reset and writes the
    buffer plus a newline to `std::clog`;
  * `class ScopeLogger`, an RAII scope timer emitting a START record at
    construction and a FINISH/EXCEPTION! record at destruction;
  * level-specific logging macros that, under NDEBUG, expand to
    `if (true) then skip else <log statement>` (the statement is dead code), and
    `log_profile`, which under NDEBUG expands to nothing.

Machine strings are modelled as Lean `String`; the ANSI escape character
`\033` is written `\x1b`.  Clock readings and the `std::uncaught_exceptions`
count are passed in as explicit inputs, since they are environment reads.
-/

namespace LoggerSpec

/-- Number of occurrences of the pattern `p` as a (contiguous) sublist of a
character list: one per position whose tail starts with `p`. -/
def countSub (p : List Char) : List Char → Nat
  | [] => 0
  | c :: l => (if p.isPrefixOf (c :: l) then 1 else 0) + countSub p l

/-- The numeric value denoted by a list of decimal digit characters. -/
def digitsVal (l : List Char) : Nat :=
  l.foldl (fun a c => 10 * a + (c.toNat - 48)) 0

/-- The `enum class Level` declaration, identical in both headers. -/
inductive Level where
  | Trace | Debug | Info | Notice | Warning | Error | Critical | Alert
  | Emergency | Profile
deriving DecidableEq, Fintype

/-- The underlying integral value of each `Level` enumerator (C++ `enum class`
default numbering 0..9). -/
def levelValue : Level → Int
  | .Trace => 0
  | .Debug => 1
  | .Info => 2
  | .Notice => 3
  | .Warning => 4
  | .Error => 5
  | .Critical => 6
  | .Alert => 7
  | .Emergency => 8
  | .Profile => 9

namespace Cpp11

/-- Transcription of `Logger::colorCode` from `logger_cpp11.hpp` (the ten labelled cases of the
switch; the `default` branch is reachable only for out-of-range enum values and
is modelled separately by `colorCodeRaw`). -/
def colorCode : Level → String
  | .Trace => "\x1b[1;37m"
  | .Debug => "\x1b[1;34m"
  | .Info => "\x1b[1;32m"
  | .Notice => "\x1b[1;36m"
  | .Warning => "\x1b[1;33m"
  | .Error => "\x1b[1;31m"
  | .Critical => "\x1b[1;35m"
  | .Alert => "\x1b[1;41m"
  | .Emergency => "\x1b[1;41;97m"
  | .Profile => "\x1b[1;36m"

/-- Transcription of `Logger::levelLabel` from `logger_cpp11.hpp` (labelled cases). -/
def levelLabel : Level → String
  | .Trace => "  TRACE  "
  | .Debug => "  DEBUG  "
  | .Info => "  INFO   "
  | .Notice => " NOTICE  "
  | .Warning => " WARNING "
  | .Error => "  ERROR  "
  | .Critical => "CRITICAL "
  | .Alert => "  ALERT  "
  | .Emergency => "EMERGENCY"
  | .Profile => "PROFILING"

/-- The function `Logger::colorCode` seen as a function of the underlying integral value of its
argument: a C++ `enum class Level` variable may hold any value of the
underlying type, and values other than 0..9 select the `default` branch. -/
def colorCodeRaw (v : Int) : String :=
  if v = 0 then "\x1b[1;37m"
  else if v = 1 then "\x1b[1;34m"
  else if v = 2 then "\x1b[1;32m"
  else if v = 3 then "\x1b[1;36m"
  else if v = 4 then "\x1b[1;33m"
  else if v = 5 then "\x1b[1;31m"
  else if v = 6 then "\x1b[1;35m"
  else if v = 7 then "\x1b[1;41m"
  else if v = 8 then "\x1b[1;41;97m"
  else if v = 9 then "\x1b[1;36m"
  else "\x1b[0m"

/-- The function `Logger::levelLabel` on the underlying integral value, `default` included. -/
def levelLabelRaw (v : Int) : String :=
  if v = 0 then "  TRACE  "
  else if v = 1 then "  DEBUG  "
  else if v = 2 then "  INFO   "
  else if v = 3 then " NOTICE  "
  else if v = 4 then " WARNING "
  else if v = 5 then "  ERROR  "
  else if v = 6 then "CRITICAL "
  else if v = 7 then "  ALERT  "
  else if v = 8 then "EMERGENCY"
  else if v = 9 then "PROFILING"
  else " UNKNOWN "

/-- Rendering of a two-digit time field, as produced by
`std::put_time(&tm, "%T")`: each of the hour, minute and second fields is
zero-padded to width 2 (values below 100 never print more digits). -/
def pad2 (n : Nat) : String :=
  if n < 10 then "0" ++ toString n else toString n

/-- Rendering of a value under `std::setw(3) << std::setfill('0')`: zero-padded
to width at least 3. -/
def pad3 (n : Nat) : String :=
  if n < 10 then "00" ++ toString n
  else if n < 100 then "0" ++ toString n
  else toString n

/-- Transcription of `Logger::timestamp`: renders the broken-down local time as `%T` (that is,
`HH:MM:SS`), then a dot, then the millisecond remainder of the system clock
under `setw(3) << setfill('0')`.  The broken-down fields and the millisecond
remainder are environment reads and are taken as inputs here. -/
def timestamp (hh mi se ms : Nat) : String :=
  pad2 hh ++ ":" ++ pad2 mi ++ ":" ++ pad2 se ++ "." ++ pad3 ms

/-- The ANSI reset sequence `"\033[0m"` appearing in the source. -/
def colorReset : String := "\x1b[0m"

/-- The `Logger` constructor: pre-renders
`"[" << timestamp() << "][" << colorCode(level) << levelLabel(level) << "\033[0m]"`,
then, when the category is non-empty, `"[" << category << "]"`, then `" "`,
into the fresh buffer.  The timestamp string is passed in (environment read). -/
def loggerInit (level : Level) (category : String) (ts : String) : String :=
  let header := "[" ++ ts ++ "][" ++ colorCode level ++ levelLabel level ++ "\x1b[0m]"
  let withCat := if category.isEmpty then header else header ++ "[" ++ category ++ "]"
  withCat ++ " "

/-- Transcription of the streaming operator of `Logger`: appends the textual rendering of the value to the buffer
and writes nothing to the stream.  The rendering is taken as a string. -/
def loggerAppend (buf : String) (rendering : String) : String :=
  buf ++ rendering

/-- The `Logger` destructor: appends `"\033[0m"` to the buffer, then inserts
the whole buffer followed by one `'\n'` into `std::clog`.  The returned string
is the complete emitted line. -/
def loggerDtorEmit (buf : String) : String :=
  buf ++ "\x1b[0m" ++ "\n"

/-- The line emitted by one full `Logger` statement: construction at `ts`,
then the streamed renderings `vs` in order, then destruction. -/
def loggerEmit (level : Level) (category : String) (ts : String)
    (vs : List String) : String :=
  loggerDtorEmit (vs.foldl loggerAppend (loggerInit level category ts))

/-- The stream writes performed by one full `Logger` statement: the
constructor and the streaming operator write nothing; only the destructor
emits, producing the single complete line. -/
def loggerStatement (level : Level) (category : String) (ts : String)
    (vs : List String) : List String :=
  [loggerEmit level category ts vs]

/-- Model of `std::uncaught_exception()` (used by `logger_cpp11.hpp`): true
exactly when the number of uncaught exceptions in flight is non-zero. -/
def uncaughtExceptionFlag (uncaughtCount : Nat) : Bool :=
  uncaughtCount != 0

/-- The START message built by the `ScopeLogger` constructor:
`oss << "START " << m_tag << " @ " << m_file_name << ":" << m_line`. -/
def scopeStartMsg (tag file : String) (line : Nat) : String :=
  "START " ++ tag ++ " @ " ++ file ++ ":" ++ toString line

/-- Rendering of `elapsed_us / 1000.0` under `std::fixed <<
std::setprecision(3)`: the exact quotient has at most three decimal digits, so
the fixed three-decimal rendering is the integer quotient, a dot, and the
three-digit zero-padded remainder. -/
def fixed3 (us : Nat) : String :=
  toString (us / 1000) ++ "." ++ pad3 (us % 1000)

/-- The leave message chosen by the `ScopeLogger` destructor:
`std::uncaught_exception() ? "EXCEPTION!" : "FINISH"`. -/
def scopeLeaveMsg (uncaughtCount : Nat) : String :=
  if uncaughtExceptionFlag uncaughtCount then "EXCEPTION!" else "FINISH"

/-- The message built by the `ScopeLogger` destructor:
`oss << leave_message << " " << m_tag << " (" << fixed << setprecision(3)
<< duration_ms << "ms)" << " @ " << m_file_name << ":" << m_line`. -/
def scopeFinishMsg (uncaughtCount : Nat) (tag file : String)
    (line us : Nat) : String :=
  scopeLeaveMsg uncaughtCount ++ " " ++ tag ++ " (" ++ fixed3 us ++ "ms)"
    ++ " @ " ++ file ++ ":" ++ toString line

/-- The data members of a live `ScopeLogger`: tag, origin file and line, and
the monotonic start instant (in microseconds since an arbitrary epoch). -/
structure ScopeState where
  tag : String
  file : String
  line : Nat
  startUs : Nat
deriving DecidableEq

/-- The `ScopeLogger` constructor: stores tag, file, line and the current
monotonic instant, then emits one Profile-level record carrying the START
message (via `log_profiling()`, whose stringized empty argument list makes the
category the empty string). -/
def scopeCtor (tag file : String) (line : Nat) (nowUs : Nat)
    (ts : String) : ScopeState × List String :=
  (⟨tag, file, line, nowUs⟩,
   [loggerEmit Level.Profile "" ts [scopeStartMsg tag file line]])

/-- The `ScopeLogger` destructor: computes the elapsed microseconds from the
stored start instant, chooses the leave message from the uncaught-exception
state, and emits one Profile-level record carrying the finish message.
`steady_clock` is monotonic, so `nowUs ≥ st.startUs` on every real execution;
the subtraction is truncated accordingly. -/
def scopeDtor (st : ScopeState) (nowUs : Nat) (uncaughtCount : Nat)
    (ts : String) : List String :=
  [loggerEmit Level.Profile "" ts
    [scopeFinishMsg uncaughtCount st.tag st.file st.line (nowUs - st.startUs)]]

/-- The records emitted over the lifetime of one `ScopeLogger` that is
constructed and then destroyed (the only events of its lifetime that emit). -/
def scopeNormalLifetime (tag file : String) (line startUs endUs uncaughtCount : Nat)
    (ts1 ts2 : String) : List String :=
  (scopeCtor tag file line startUs ts1).2
    ++ scopeDtor (scopeCtor tag file line startUs ts1).1 endUs uncaughtCount ts2

/-- Observable state of a run: the lines written to `std::clog` so far, and
the identifiers of the side effects that have executed so far. -/
structure World where
  output : List String
  effects : List Nat
deriving DecidableEq

/-- Evaluation of the expressions streamed into a log statement.  Each
argument is a pair of a side-effect identifier and the textual rendering its
evaluation produces; evaluating the arguments records their side effects and
yields the renderings. -/
def evalArgs (args : List (Nat × String)) (w : World) : World × List String :=
  (⟨w.output, w.effects ++ args.map Prod.fst⟩, args.map Prod.snd)

/-- One active (non-NDEBUG) log statement
`log::Logger(level, category) << e1 << ... << en`: the streamed expressions are
evaluated (executing their side effects) and the full line is emitted. -/
def logStatementActive (level : Level) (category : String) (ts : String)
    (args : List (Nat × String)) (w : World) : World :=
  let p := evalArgs args w
  ⟨p.1.output ++ loggerStatement level category ts p.2, p.1.effects⟩

/-- The C++ conditional statement `if (c) thenBranch else elseBranch`:
exactly one branch executes. -/
def runIfElse (c : Bool) (thenBranch elseBranch : World → World)
    (w : World) : World :=
  if c then thenBranch w else elseBranch w

/-- A level-specific log macro under NDEBUG:
`if (true) then skip else <the full log statement>`.  The log statement, with
its argument evaluations, is the dead `else` branch. -/
def logStatementNDebug (level : Level) (category : String) (ts : String)
    (args : List (Nat × String)) (w : World) : World :=
  runIfElse true (fun w => w) (logStatementActive level category ts args) w

/-- The macro `log_profile(tag)` under NDEBUG expands to the empty statement. -/
def logProfileNDebug (w : World) : World :=
  w

end Cpp11

namespace Cpp23

/-- Transcription of `Logger::colorCode` from `logger_cpp23.hpp` (labelled cases of the switch). -/
def colorCode : Level → String
  | .Trace => "\x1b[1;37m"
  | .Debug => "\x1b[1;34m"
  | .Info => "\x1b[1;32m"
  | .Notice => "\x1b[1;36m"
  | .Warning => "\x1b[1;33m"
  | .Error => "\x1b[1;31m"
  | .Critical => "\x1b[1;35m"
  | .Alert => "\x1b[1;41m"
  | .Emergency => "\x1b[1;41;97m"
  | .Profile => "\x1b[1;36m"

/-- Transcription of `Logger::levelLabel` from `logger_cpp23.hpp` (labelled cases). -/
def levelLabel : Level → String
  | .Trace => "  TRACE  "
  | .Debug => "  DEBUG  "
  | .Info => "  INFO   "
  | .Notice => " NOTICE  "
  | .Warning => " WARNING "
  | .Error => "  ERROR  "
  | .Critical => "CRITICAL "
  | .Alert => "  ALERT  "
  | .Emergency => "EMERGENCY"
  | .Profile => "PROFILING"

/-- Transcription of `Logger::timestamp` from `logger_cpp23.hpp` (same rendering pipeline as
the C++11 header: `put_time "%T"`, a dot, `setw(3) << setfill('0')`). -/
def timestamp (hh mi se ms : Nat) : String :=
  Cpp11.pad2 hh ++ ":" ++ Cpp11.pad2 mi ++ ":" ++ Cpp11.pad2 se ++ "."
    ++ Cpp11.pad3 ms

/-- The `Logger` constructor from `logger_cpp23.hpp`. -/
def loggerInit (level : Level) (category : String) (ts : String) : String :=
  let header := "[" ++ ts ++ "][" ++ colorCode level ++ levelLabel level ++ "\x1b[0m]"
  let withCat := if category.isEmpty then header else header ++ "[" ++ category ++ "]"
  withCat ++ " "

/-- Transcription of the streaming operator of `Logger` from `logger_cpp23.hpp`. -/
def loggerAppend (buf : String) (rendering : String) : String :=
  buf ++ rendering

/-- The `Logger` destructor from `logger_cpp23.hpp`. -/
def loggerDtorEmit (buf : String) : String :=
  buf ++ "\x1b[0m" ++ "\n"

/-- The line emitted by one full `Logger` statement (C++23 header). -/
def loggerEmit (level : Level) (category : String) (ts : String)
    (vs : List String) : String :=
  loggerDtorEmit (vs.foldl loggerAppend (loggerInit level category ts))

/-- The stream writes of one full `Logger` statement (C++23 header). -/
def loggerStatement (level : Level) (category : String) (ts : String)
    (vs : List String) : List String :=
  [loggerEmit level category ts vs]

/-- The START message built by the `ScopeLogger` constructor of
`logger_cpp23.hpp`: `std::format` with the pattern
`START <tag> @ <file>:<line>` (each placeholder is unformatted
interpolation). -/
def scopeStartMsg (tag file : String) (line : Nat) : String :=
  "START " ++ tag ++ " @ " ++ file ++ ":" ++ toString line

/-- The leave message chosen by the `ScopeLogger` destructor of
`logger_cpp23.hpp`: `(std::uncaught_exceptions() == 0) ? "FINISH" :
"EXCEPTION!"`. -/
def scopeLeaveMsg (uncaughtCount : Nat) : String :=
  if uncaughtCount == 0 then "FINISH" else "EXCEPTION!"

/-- The message built by the `ScopeLogger` destructor of `logger_cpp23.hpp`:
`std::format` with the pattern `<leave> <tag> (<duration>ms) @ <file>:<line>`,
where the duration placeholder carries the fixed three-decimal format spec
`0.3f`. -/
def scopeFinishMsg (uncaughtCount : Nat) (tag file : String)
    (line us : Nat) : String :=
  scopeLeaveMsg uncaughtCount ++ " " ++ tag ++ " (" ++ Cpp11.fixed3 us
    ++ "ms) @ " ++ file ++ ":" ++ toString line

/-- The data members of a live C++23 `ScopeLogger`: `string_view` tag and file
name, `uint32_t` line, and the monotonic start instant in microseconds. -/
structure ScopeState where
  tag : String
  file : String
  line : Nat
  startUs : Nat
deriving DecidableEq

/-- The C++23 `ScopeLogger` constructor: stores tag, file name and line (taken
from `std::source_location::current()` at the call site), records the
monotonic instant, and emits one Profile-level record with the START message
(`log_profiling()` with no arguments gives the empty category). -/
def scopeCtor (tag file : String) (line : Nat) (nowUs : Nat)
    (ts : String) : ScopeState × List String :=
  (⟨tag, file, line, nowUs⟩,
   [loggerEmit Level.Profile "" ts [scopeStartMsg tag file line]])

/-- The C++23 `ScopeLogger` destructor. -/
def scopeDtor (st : ScopeState) (nowUs : Nat) (uncaughtCount : Nat)
    (ts : String) : List String :=
  [loggerEmit Level.Profile "" ts
    [scopeFinishMsg uncaughtCount st.tag st.file st.line (nowUs - st.startUs)]]

/-- The records emitted over the lifetime of one C++23 `ScopeLogger` that is
constructed and destroyed without being moved. -/
def scopeNormalLifetime (tag file : String) (line startUs endUs uncaughtCount : Nat)
    (ts1 ts2 : String) : List String :=
  (scopeCtor tag file line startUs ts1).2
    ++ scopeDtor (scopeCtor tag file line startUs ts1).1 endUs uncaughtCount ts2

/-- The records emitted when a `ScopeLogger` is constructed and then
move-constructed from, as in `ScopeLogger a(tag); ScopeLogger b(std::move(a));`.
Per C++ semantics of the declaration `ScopeLogger(ScopeLogger&&) = default;`:
the move constructor performs memberwise transfer and runs no constructor
body, so it emits nothing, and for these members (two `string_view`s, a
`uint32_t` and a trivially copyable `time_point`) the transfer is a copy, so
the moved-from object retains equal member values.  Both objects are
subsequently destroyed (`b` first, then `a`), and each destruction runs the
full destructor body. -/
def scopeMoveLifetime (tag file : String)
    (line startUs endBUs endAUs uncaughtCountB uncaughtCountA : Nat)
    (ts1 ts2 ts3 : String) : List String :=
  let c := scopeCtor tag file line startUs ts1
  c.2 ++ scopeDtor c.1 endBUs uncaughtCountB ts2
    ++ scopeDtor c.1 endAUs uncaughtCountA ts3

end Cpp23

/-! ## Supporting lemmas -/

theorem join_cons (v : String) (t : List String) :
    String.join (v :: t) = v ++ String.join t := by
  apply String.ext
  simp [String.data_join, String.data_append]

theorem foldl_append_eq_join (t : List String) (b : String) :
    t.foldl (fun a c => a ++ c) b = b ++ String.join t := by
  induction t generalizing b with
  | nil => simp [String.join]
  | cons v t ih => rw [List.foldl_cons, ih, join_cons, String.append_assoc]

theorem foldl_loggerAppend_eq_join (t : List String) (b : String) :
    t.foldl Cpp11.loggerAppend b = b ++ String.join t :=
  foldl_append_eq_join t b

set_option maxRecDepth 10000 in
theorem pad2_spec : ∀ n < 100, (Cpp11.pad2 n).length = 2
    ∧ digitsVal (Cpp11.pad2 n).data = n
    ∧ ∀ c ∈ (Cpp11.pad2 n).data, c.isDigit = true := by
  decide

set_option maxRecDepth 10000 in
set_option maxHeartbeats 1000000 in
theorem pad3_spec : ∀ n < 1000, (Cpp11.pad3 n).length = 3
    ∧ digitsVal (Cpp11.pad3 n).data = n
    ∧ ∀ c ∈ (Cpp11.pad3 n).data, c.isDigit = true := by
  decide

/-- The raw switch model agrees with the enumerator-indexed one on the ten
named enumerators. -/
theorem raw_switch_agrees : ∀ l : Level,
    Cpp11.colorCodeRaw (levelValue l) = Cpp11.colorCode l
    ∧ Cpp11.levelLabelRaw (levelValue l) = Cpp11.levelLabel l := by
  decide

theorem countSub_skipSafe (p : List Char) (l r : List Char)
    (hl : ∀ c ∈ l, c ≠ '[') :
    countSub ('[' :: p) (l ++ r) = countSub ('[' :: p) r := by
  induction l with
  | nil => rfl
  | cons c t ih =>
      have hc : c ≠ '[' := hl c (List.mem_cons_self c t)
      have hpre : (('[' :: p).isPrefixOf (c :: (t ++ r))) = false := by
        simp [List.isPrefixOf]
        intro h2
        exact absurd h2.symm hc
      rw [List.cons_append, countSub, hpre]
      simp only [Bool.false_eq_true, if_false, Nat.zero_add]
      exact ih fun x hx => hl x (List.mem_cons_of_mem _ hx)

/-- Counting occurrences of `[net]` in `"[" ++ ts ++ R` when `ts` is made of
digits, colons and dots (as every timestamp is) and `R` does not start with
`n`: every occurrence lies inside `R`. -/
theorem countSub_after_bracket (ts R : String) (k : Nat)
    (hts : ∀ c ∈ ts.data, c.isDigit = true ∨ c = ':' ∨ c = '.')
    (hhead : R.data.head? ≠ some 'n')
    (hcount : countSub ("[net]".data) R.data = k) :
    countSub ("[net]".data) (("[" ++ (ts ++ R)).data) = k := by
  have hsafe : ∀ c ∈ ts.data, c ≠ '[' := by
    intro c hc
    rcases hts c hc with h | h | h
    · intro he; rw [he] at h; exact absurd h (by decide)
    · rw [h]; decide
    · rw [h]; decide
  have hsafen : ∀ c ∈ ts.data, c ≠ 'n' := by
    intro c hc
    rcases hts c hc with h | h | h
    · intro he; rw [he] at h; exact absurd h (by decide)
    · rw [h]; decide
    · rw [h]; decide
  have hdata : ("[" ++ (ts ++ R)).data = '[' :: (ts.data ++ R.data) := by
    simp [String.data_append]
  have hpat : ("[net]" : String).data = '[' :: ['n', 'e', 't', ']'] := rfl
  rw [hdata, hpat, countSub]
  have hpre : ('[' :: ['n', 'e', 't', ']']).isPrefixOf ('[' :: (ts.data ++ R.data)) = false := by
    cases hd : ts.data with
    | nil =>
        simp only [hd, List.nil_append]
        cases hr : R.data with
        | nil => rfl
        | cons d l =>
            have hdn : d ≠ 'n' := fun he => hhead (by rw [hr, he]; rfl)
            simp [List.isPrefixOf]
            intro h2
            exact absurd h2.symm hdn
    | cons c t =>
        have hc : c ≠ 'n' := hsafen c (by rw [hd]; exact List.mem_cons_self c t)
        simp [List.isPrefixOf, hd]
        intro h2
        exact absurd h2.symm hc
  rw [hpre]
  simp only [Bool.false_eq_true, if_false, Nat.zero_add]
  rw [countSub_skipSafe _ _ _ hsafe, hcount]

/-! ## Claim theorems -/

/-- C2: for every variant of the closed `Level` enumeration, `levelLabel` and
`colorCode` (in both headers) return exactly the label string and the color
escape of the fixed table of spec section 4.1 — Trace bold bright-white
(`1;37`) with label `  TRACE  `, Debug bold bright-blue (`1;34`), Info bold
bright-green (`1;32`), Notice bold bright-cyan (`1;36`), Warning bold
bright-yellow (`1;33`), Error bold bright-red (`1;31`), Critical bold
bright-magenta (`1;35`), Alert red background (`1;41`), Emergency red
background with bright-white text (`1;41;97`) and label `EMERGENCY`, Profile
bold bright-cyan with label `PROFILING` — every label has length exactly 9,
and the mapping is a total function of the variant (hence deterministic and
identical on every call). -/
theorem c2_level_table_exact :
    (∀ l : Level, (Cpp11.levelLabel l).length = 9 ∧ (Cpp23.levelLabel l).length = 9)
    ∧ Cpp11.levelLabel .Trace = "  TRACE  " ∧ Cpp11.colorCode .Trace = "\x1b[1;37m"
    ∧ Cpp11.levelLabel .Debug = "  DEBUG  " ∧ Cpp11.colorCode .Debug = "\x1b[1;34m"
    ∧ Cpp11.levelLabel .Info = "  INFO   " ∧ Cpp11.colorCode .Info = "\x1b[1;32m"
    ∧ Cpp11.levelLabel .Notice = " NOTICE  " ∧ Cpp11.colorCode .Notice = "\x1b[1;36m"
    ∧ Cpp11.levelLabel .Warning = " WARNING " ∧ Cpp11.colorCode .Warning = "\x1b[1;33m"
    ∧ Cpp11.levelLabel .Error = "  ERROR  " ∧ Cpp11.colorCode .Error = "\x1b[1;31m"
    ∧ Cpp11.levelLabel .Critical = "CRITICAL " ∧ Cpp11.colorCode .Critical = "\x1b[1;35m"
    ∧ Cpp11.levelLabel .Alert = "  ALERT  " ∧ Cpp11.colorCode .Alert = "\x1b[1;41m"
    ∧ Cpp11.levelLabel .Emergency = "EMERGENCY" ∧ Cpp11.colorCode .Emergency = "\x1b[1;41;97m"
    ∧ Cpp11.levelLabel .Profile = "PROFILING" ∧ Cpp11.colorCode .Profile = "\x1b[1;36m"
    ∧ (∀ l : Level, Cpp23.levelLabel l = Cpp11.levelLabel l
         ∧ Cpp23.colorCode l = Cpp11.colorCode l) := by
  decide

/-- C10: `levelLabel` and `colorCode` are total on the whole underlying
integral type of `Level`: any value outside the ten named enumerators takes
the `default` branch, so `levelLabel` returns the 9-character placeholder
` UNKNOWN ` and `colorCode` returns the reset sequence, and record
construction cannot fail on any `Level` argument. -/
theorem c10_out_of_range_total (v : Int) (h : v < 0 ∨ 9 < v) :
    Cpp11.levelLabelRaw v = " UNKNOWN " ∧ Cpp11.colorCodeRaw v = "\x1b[0m"
    ∧ (Cpp11.levelLabelRaw v).length = 9 := by
  have h0 : v ≠ 0 := by rcases h with h | h <;> omega
  have h1 : v ≠ 1 := by rcases h with h | h <;> omega
  have h2 : v ≠ 2 := by rcases h with h | h <;> omega
  have h3 : v ≠ 3 := by rcases h with h | h <;> omega
  have h4 : v ≠ 4 := by rcases h with h | h <;> omega
  have h5 : v ≠ 5 := by rcases h with h | h <;> omega
  have h6 : v ≠ 6 := by rcases h with h | h <;> omega
  have h7 : v ≠ 7 := by rcases h with h | h <;> omega
  have h8 : v ≠ 8 := by rcases h with h | h <;> omega
  have h9 : v ≠ 9 := by rcases h with h | h <;> omega
  refine ⟨?_, ?_, ?_⟩ <;>
    simp [Cpp11.levelLabelRaw, Cpp11.colorCodeRaw,
      h0, h1, h2, h3, h4, h5, h6, h7, h8, h9] <;>
    rfl

/-- Witness for C10 at the concrete out-of-range value 10. -/
theorem c10_out_of_range_total_witness :
    Cpp11.levelLabelRaw 10 = " UNKNOWN " ∧ Cpp11.colorCodeRaw 10 = "\x1b[0m"
    ∧ (Cpp11.levelLabelRaw 10).length = 9 :=
  c10_out_of_range_total 10 (Or.inr (by norm_num))

/-- C6: under NDEBUG, a level-specific log macro expands to
`if (true) then skip else <statement>`, so executing it leaves the world
unchanged — no output line, no record, and no side effect of any streamed
argument executes — and `log_profile` expands to the empty statement. -/
theorem c6_ndebug_noop (level : Level) (category ts : String)
    (args : List (Nat × String)) (w : Cpp11.World) :
    Cpp11.logStatementNDebug level category ts args w = w
    ∧ (Cpp11.logStatementNDebug level category ts args w).output = w.output
    ∧ (Cpp11.logStatementNDebug level category ts args w).effects = w.effects
    ∧ Cpp11.logProfileNDebug w = w :=
  ⟨rfl, rfl, rfl, rfl⟩

/-- C8: the `ScopeLogger` destructor surfaces no error to the caller: it is a
total function of its inputs that always emits exactly one record — there is
no failure outcome — and in the absence of an active exception (uncaught
count 0) it takes the normal FINISH path.  (In the source the destructor is
declared `noexcept`, so no exception can propagate out of it.) -/
theorem c8_dtor_total_no_raise (tag file ts : String)
    (line startUs nowUs uncaughtCount : Nat) :
    (Cpp11.scopeDtor ⟨tag, file, line, startUs⟩ nowUs uncaughtCount ts).length = 1
    ∧ Cpp11.scopeDtor ⟨tag, file, line, startUs⟩ nowUs 0 ts
        = [Cpp11.loggerEmit Level.Profile "" ts
            ["FINISH" ++ " " ++ tag ++ " (" ++ Cpp11.fixed3 (nowUs - startUs)
               ++ "ms)" ++ " @ " ++ file ++ ":" ++ toString line]] :=
  ⟨rfl, rfl⟩

/-- C5: each streamed value appends exactly its rendering to the buffer with
no automatic separator, and one full `Logger` statement performs exactly one
stream write, whose content is the header, then the renderings in append
order with nothing between them, then the color-reset sequence, then one
newline. -/
theorem c5_single_line_emission (level : Level) (category ts : String)
    (vs : List String) :
    Cpp11.loggerStatement level category ts vs
      = [Cpp11.loggerInit level category ts ++ String.join vs ++ "\x1b[0m" ++ "\n"]
    ∧ (Cpp11.loggerStatement level category ts vs).length = 1
    ∧ (∀ buf r : String, Cpp11.loggerAppend buf r = buf ++ r) := by
  refine ⟨?_, rfl, fun _ _ => rfl⟩
  show [Cpp11.loggerDtorEmit (vs.foldl Cpp11.loggerAppend (Cpp11.loggerInit level category ts))] = _
  rw [foldl_loggerAppend_eq_join]
  rfl

/-- C9: the two headers are observationally equivalent — for every `Level`
the label and color functions agree, full `Logger` statements produce
identical writes for identical inputs and clock readings, the timestamps
agree, and the `ScopeLogger` START and finish messages agree for the same
tag, file, line, elapsed time and uncaught-exception count, with the C++11
`uncaught_exception()` flag true exactly when the C++23
`uncaught_exceptions()` count is non-zero. -/
theorem c9_cpp11_cpp23_equiv :
    (∀ l : Level, Cpp11.colorCode l = Cpp23.colorCode l
       ∧ Cpp11.levelLabel l = Cpp23.levelLabel l)
    ∧ (∀ (l : Level) (category ts : String) (vs : List String),
        Cpp11.loggerStatement l category ts vs = Cpp23.loggerStatement l category ts vs)
    ∧ (∀ hh mi se ms : Nat, Cpp11.timestamp hh mi se ms = Cpp23.timestamp hh mi se ms)
    ∧ (∀ (tag file : String) (line : Nat),
        Cpp11.scopeStartMsg tag file line = Cpp23.scopeStartMsg tag file line)
    ∧ (∀ (uncaughtCount : Nat) (tag file : String) (line us : Nat),
        Cpp11.scopeFinishMsg uncaughtCount tag file line us
          = Cpp23.scopeFinishMsg uncaughtCount tag file line us)
    ∧ (∀ uncaughtCount : Nat,
        Cpp11.uncaughtExceptionFlag uncaughtCount = true ↔ uncaughtCount ≠ 0) := by
  refine ⟨?_, ?_, ?_, ?_, ?_, ?_⟩
  · intro l
    cases l <;> exact ⟨rfl, rfl⟩
  · intro l category ts vs
    cases l <;> rfl
  · intro hh mi se ms
    rfl
  · intro tag file line
    rfl
  · intro uncaughtCount tag file line us
    by_cases hc : uncaughtCount = 0 <;>
      simp [Cpp11.scopeFinishMsg, Cpp23.scopeFinishMsg, Cpp11.scopeLeaveMsg,
        Cpp23.scopeLeaveMsg, Cpp11.uncaughtExceptionFlag, hc] <;>
      rw [String.append_assoc _ "ms)" " @ ",
        show ("ms)" ++ " @ " : String) = "ms) @ " from rfl]
  · intro uncaughtCount
    simp [Cpp11.uncaughtExceptionFlag]

/-- C3: the record emitted at `ScopeLogger` destruction is one Profile-level
line whose message is the leave message, the tag, the elapsed duration and
the origin: the leave message is `EXCEPTION!` exactly when the
uncaught-exception count is non-zero at destruction and `FINISH` otherwise;
the duration shown is the elapsed monotonic microseconds rendered in
milliseconds as the integer quotient, a dot, and an exactly-3-digit
zero-padded fraction whose digits denote the microsecond remainder; and the
tag, file and line are the same values that appear in the START record. -/
theorem c3_finish_record_shape (tag file ts1 ts2 : String)
    (line startUs endUs uncaughtCount : Nat) :
    Cpp11.scopeNormalLifetime tag file line startUs endUs uncaughtCount ts1 ts2
      = [Cpp11.loggerEmit Level.Profile "" ts1
           ["START " ++ tag ++ " @ " ++ file ++ ":" ++ toString line],
         Cpp11.loggerEmit Level.Profile "" ts2
           [(if uncaughtCount ≠ 0 then "EXCEPTION!" else "FINISH") ++ " " ++ tag
              ++ " (" ++ toString ((endUs - startUs) / 1000) ++ "."
              ++ Cpp11.pad3 ((endUs - startUs) % 1000) ++ "ms)" ++ " @ " ++ file
              ++ ":" ++ toString line]]
    ∧ (Cpp11.pad3 ((endUs - startUs) % 1000)).length = 3
    ∧ digitsVal (Cpp11.pad3 ((endUs - startUs) % 1000)).data = (endUs - startUs) % 1000
    ∧ (endUs - startUs) / 1000 * 1000 + (endUs - startUs) % 1000 = endUs - startUs := by
  have hm : (endUs - startUs) % 1000 < 1000 := Nat.mod_lt _ (by norm_num)
  have hp := pad3_spec _ hm
  refine ⟨?_, hp.1, hp.2.1, by omega⟩
  by_cases hc : uncaughtCount = 0 <;>
    simp [Cpp11.scopeNormalLifetime, Cpp11.scopeCtor, Cpp11.scopeDtor,
      Cpp11.scopeStartMsg, Cpp11.scopeFinishMsg, Cpp11.scopeLeaveMsg,
      Cpp11.uncaughtExceptionFlag, Cpp11.fixed3, hc, String.append_assoc]

/-- C1 (failing input): the claimed single-ownership transfer under move does
not hold in the code.  A `ScopeLogger` that is constructed and destroyed
without being moved emits exactly the start/finish pair; but after
`ScopeLogger b(std::move(a))` the defaulted move constructor leaves the
moved-from object with equal member values, both destructors run, and the
instance's lifetime produces three records — one START and two finish
records — instead of the claimed single start/finish pair. -/
theorem c1_move_double_finish :
    Cpp23.scopeNormalLifetime "work" "demo.cpp" 7 100 2600 0
        "09:00:00.000" "09:00:00.002"
      = ["[09:00:00.000][\x1b[1;36mPROFILING\x1b[0m] START work @ demo.cpp:7\x1b[0m\n",
         "[09:00:00.002][\x1b[1;36mPROFILING\x1b[0m] FINISH work (2.500ms) @ demo.cpp:7\x1b[0m\n"]
    ∧ Cpp23.scopeMoveLifetime "work" "demo.cpp" 7 100 1100 2600 0 0
        "09:00:00.000" "09:00:00.001" "09:00:00.002"
      = ["[09:00:00.000][\x1b[1;36mPROFILING\x1b[0m] START work @ demo.cpp:7\x1b[0m\n",
         "[09:00:00.001][\x1b[1;36mPROFILING\x1b[0m] FINISH work (1.000ms) @ demo.cpp:7\x1b[0m\n",
         "[09:00:00.002][\x1b[1;36mPROFILING\x1b[0m] FINISH work (2.500ms) @ demo.cpp:7\x1b[0m\n"]
    ∧ (Cpp23.scopeMoveLifetime "work" "demo.cpp" 7 100 1100 2600 0 0
        "09:00:00.000" "09:00:00.001" "09:00:00.002").length = 3 := by
  refine ⟨by decide, by decide, rfl⟩

/-- C4: constructing a `Logger` pre-renders exactly the header — a bracketed
timestamp, then a bracketed colored label closed by the reset sequence, then a
bracketed category exactly when the category is non-empty, then one trailing
space; for category `""` the emitted line contains no `[net]`-style category
segment at all (count 0 of any such segment), and for category `"net"` it
contains exactly one `[net]` segment, for every timestamp of the usual
digits/colons/dots shape. -/
theorem c4_header_and_category (level : Level) (category ts : String)
    (hts : ∀ c ∈ ts.data, c.isDigit = true ∨ c = ':' ∨ c = '.') :
    Cpp11.loggerInit level category ts
      = "[" ++ ts ++ "][" ++ Cpp11.colorCode level ++ Cpp11.levelLabel level
          ++ "\x1b[0m]"
          ++ (if category.isEmpty then "" else "[" ++ category ++ "]") ++ " "
    ∧ countSub ("[net]".data) (Cpp11.loggerEmit level "net" ts []).data = 1
    ∧ countSub ("[net]".data) (Cpp11.loggerEmit level "" ts []).data = 0 := by
  refine ⟨?_, ?_, ?_⟩
  · by_cases hcat : category.isEmpty
    · simp [Cpp11.loggerInit, hcat, String.append_assoc, String.append_empty]
    · simp [Cpp11.loggerInit, hcat, String.append_assoc]
      rw [show ("\x1b[0m][" : String) = "\x1b[0m]" ++ "[" from rfl,
        String.append_assoc]
  · have e1 : Cpp11.loggerEmit level "net" ts []
        = "[" ++ (ts ++ ("][" ++ (Cpp11.colorCode level ++ (Cpp11.levelLabel level
            ++ ("\x1b[0m]" ++ ("[net]" ++ (" " ++ ("\x1b[0m" ++ "\n")))))))) := by
      have hne : ("net" : String).isEmpty = false := rfl
      simp [Cpp11.loggerEmit, Cpp11.loggerDtorEmit, Cpp11.loggerInit, hne,
        String.append_assoc]
    rw [e1]
    refine countSub_after_bracket ts _ 1 hts ?_ ?_
    · cases level <;> decide
    · cases level <;> decide
  · have e0 : Cpp11.loggerEmit level "" ts []
        = "[" ++ (ts ++ ("][" ++ (Cpp11.colorCode level ++ (Cpp11.levelLabel level
            ++ ("\x1b[0m]" ++ (" " ++ ("\x1b[0m" ++ "\n"))))))) := by
      have hne : ("" : String).isEmpty = true := rfl
      simp [Cpp11.loggerEmit, Cpp11.loggerDtorEmit, Cpp11.loggerInit, hne,
        String.append_assoc]
    rw [e0]
    refine countSub_after_bracket ts _ 0 hts ?_ ?_
    · cases level <;> decide
    · cases level <;> decide

/-- Witness for C4 at level Info and the concrete timestamp `12:34:56.789`. -/
theorem c4_header_and_category_witness :
    (∀ c ∈ ("12:34:56.789" : String).data, c.isDigit = true ∨ c = ':' ∨ c = '.')
    ∧ (Cpp11.loggerInit Level.Info "net" "12:34:56.789"
        = "[" ++ "12:34:56.789" ++ "][" ++ Cpp11.colorCode Level.Info
            ++ Cpp11.levelLabel Level.Info ++ "\x1b[0m]"
            ++ (if ("net" : String).isEmpty then "" else "[" ++ ("net" : String) ++ "]")
            ++ " "
       ∧ countSub ("[net]".data)
           (Cpp11.loggerEmit Level.Info "net" "12:34:56.789" []).data = 1
       ∧ countSub ("[net]".data)
           (Cpp11.loggerEmit Level.Info "" "12:34:56.789" []).data = 0) :=
  ⟨by decide, c4_header_and_category Level.Info "net" "12:34:56.789" (by decide)⟩

/-- C7: for every in-range broken-down local time and millisecond remainder,
the rendered timestamp splits as hours, minutes and seconds fields of exactly
two digits each, separated by colons, then a dot, then a milliseconds field
of exactly three decimal digits whose value is the millisecond remainder —
so the field is zero-padded (5 renders as `005`, never `5`) — and the
timestamp is what stands inside the first bracket of every record header. -/
theorem c7_timestamp_format (hh mi se ms : Nat) (level : Level) (category : String)
    (h1 : hh < 24) (h2 : mi < 60) (h3 : se < 60) (h4 : ms < 1000) :
    ∃ H M S MS : String,
      Cpp11.timestamp hh mi se ms = H ++ ":" ++ M ++ ":" ++ S ++ "." ++ MS
      ∧ H.length = 2 ∧ M.length = 2 ∧ S.length = 2 ∧ MS.length = 3
      ∧ digitsVal H.data = hh ∧ digitsVal M.data = mi ∧ digitsVal S.data = se
      ∧ digitsVal MS.data = ms
      ∧ (∀ c ∈ MS.data, c.isDigit = true)
      ∧ Cpp11.pad3 5 = "005"
      ∧ ∃ rest : String,
          Cpp11.loggerInit level category (Cpp11.timestamp hh mi se ms)
            = "[" ++ Cpp11.timestamp hh mi se ms ++ rest := by
  obtain ⟨lh, vh, -⟩ := pad2_spec hh (by omega)
  obtain ⟨lm, vm, -⟩ := pad2_spec mi (by omega)
  obtain ⟨ls, vs, -⟩ := pad2_spec se (by omega)
  obtain ⟨l3, v3, d3⟩ := pad3_spec ms h4
  refine ⟨Cpp11.pad2 hh, Cpp11.pad2 mi, Cpp11.pad2 se, Cpp11.pad3 ms, rfl,
    lh, lm, ls, l3, vh, vm, vs, v3, d3, by decide, ?_⟩
  refine ⟨"][" ++ Cpp11.colorCode level ++ Cpp11.levelLabel level ++ "\x1b[0m]"
      ++ (if category.isEmpty then "" else "[" ++ category ++ "]") ++ " ", ?_⟩
  by_cases hcat : category.isEmpty
  · simp [Cpp11.loggerInit, hcat, String.append_assoc, String.append_empty]
  · simp [Cpp11.loggerInit, hcat, String.append_assoc]
    rw [show ("\x1b[0m][" : String) = "\x1b[0m]" ++ "[" from rfl,
      String.append_assoc]

/-- Witness for C7 at 09:05:30 and millisecond remainder 5. -/
theorem c7_timestamp_format_witness :
    ∃ H M S MS : String,
      Cpp11.timestamp 9 5 30 5 = H ++ ":" ++ M ++ ":" ++ S ++ "." ++ MS
      ∧ H.length = 2 ∧ M.length = 2 ∧ S.length = 2 ∧ MS.length = 3
      ∧ digitsVal H.data = 9 ∧ digitsVal M.data = 5 ∧ digitsVal S.data = 30
      ∧ digitsVal MS.data = 5
      ∧ (∀ c ∈ MS.data, c.isDigit = true)
      ∧ Cpp11.pad3 5 = "005"
      ∧ ∃ rest : String,
          Cpp11.loggerInit Level.Debug "net" (Cpp11.timestamp 9 5 30 5)
            = "[" ++ Cpp11.timestamp 9 5 30 5 ++ rest :=
  c7_timestamp_format 9 5 30 5 Level.Debug "net"
    (by norm_num) (by norm_num) (by norm_num) (by norm_num)

end LoggerSpec
